import Mathlib

/-!
Verification of `anyio.from_thread` (`BlockingPortal` and the portal
bootstrap) against its specification.

The Python source is shallowly embedded: each relevant method becomes a
pure Lean function over explicit state.  `concurrent.futures.Future` is
modelled as a state cell, the scheduler's cancel-scope and event
primitives (external collaborators, not part of the sources) are
modelled from the spec's description of their contract.
-/

namespace AnyioFromThread

/-- Exception taxonomy of the embedding.  `cancelled` is the scheduler's
cancellation exception class (`get_cancelled_exc_class()`); it derives
from `BaseException` but not from `Exception`.  `runtimeError` is
`RuntimeError` (an `Exception`).  `ordinary c` is any other `Exception`
subclass, `fatal c` any `BaseException` that is not an `Exception`
(e.g. `KeyboardInterrupt`). -/
inductive Exc where
  | cancelled
  | runtimeError (msg : String)
  | ordinary (code : Nat)
  | fatal (code : Nat)
  deriving DecidableEq, Repr

/-- `isinstance(exc, Exception)` for the embedded exceptions. -/
def Exc.isException : Exc → Bool
  | .cancelled => false
  | .runtimeError _ => true
  | .ordinary _ => true
  | .fatal _ => false

/-- State of a `concurrent.futures.Future`: pending, cancelled, finished
with a value, or finished with an exception.  (The `running` state is
never entered by the portal's task futures: no code path calls
`set_running_or_notify_cancel` on them.) -/
inductive FutureState (α : Type u) where
  | pending
  | cancelled
  | value (v : α)
  | error (e : Exc)
  deriving DecidableEq, Repr

namespace FutureState

/-- `Future.cancelled()`. -/
def isCancelled : FutureState α → Bool
  | .cancelled => true
  | _ => false

/-- `Future.done()`: the future has reached a terminal state. -/
def isDone : FutureState α → Bool
  | .pending => false
  | _ => true

/-- `Future.cancel()`: a pending future transitions to cancelled; a
future that is already terminal is left unchanged (the request is
ignored). -/
def cancelReq : FutureState α → FutureState α
  | .pending => .cancelled
  | s => s

/-- `Future.set_result(v)`.  Modelled from the spec: resolution
requests on a future that was already cancelled (or otherwise terminal)
are ignored; every call site in the sources either guards with
`future.cancelled()` or operates on a freshly created future. -/
def setResult (s : FutureState α) (v : α) : FutureState α :=
  match s with
  | .pending => .value v
  | s => s

/-- `Future.set_exception(e)`.  Modelled from the spec: ignored if the
future was already terminal (same contract as `setResult`). -/
def setException (s : FutureState α) (e : Exc) : FutureState α :=
  match s with
  | .pending => .error e
  | s => s

/-- `Future.exception()` on a terminal future: the stored exception if
it finished with an error, `None` otherwise (only called by the sources
after a `cancelled()` check). -/
def exceptionOf : FutureState α → Option Exc
  | .error e => some e
  | _ => none

end FutureState

/-! ## `BlockingPortal._call_func`

```python
async def _call_func(self, func, args, kwargs, future):
    def callback(f):
        if f.cancelled():
            self.call(scope.cancel)

    try:
        retval = func(*args, **kwargs)
        if iscoroutine(retval):
            with CancelScope() as scope:
                if future.cancelled():
                    scope.cancel()
                else:
                    future.add_done_callback(callback)

                retval = await retval
    except self._cancelled_exc_class:
        future.cancel()
    except BaseException as exc:
        if not future.cancelled():
            future.set_exception(exc)

        # Let base exceptions fall through
        if not isinstance(exc, Exception):
            raise
    else:
        if not future.cancelled():
            future.set_result(retval)
    finally:
        scope = None
```
-/

/-- Behaviour of the coroutine when `await retval` actually resumes its
body inside the (not yet cancelled) private cancel scope:
* `returns v`: the coroutine runs to completion with value `v`;
* `raisesExc e`: the body raises exception `e`;
* `outerCancel`: the scheduler's own cancellation (not requested via
  the future, e.g. portal shutdown cancelling the task group's scope)
  is delivered at the await point; the exception does not belong to
  the private scope, so the scope's exit re-raises it;
* `futureCancelMidRun`: while the body is suspended, the future is
  cancelled from another thread; the registered done-callback runs
  `self.call(scope.cancel)`, the private scope delivers its own
  cancellation exception at the suspension point, and the scope's
  exit swallows it. -/
inductive CoroBehavior (α : Type u) where
  | returns (v : α)
  | raisesExc (e : Exc)
  | outerCancel
  | futureCancelMidRun
  deriving DecidableEq, Repr

/-- Result of the synchronous call `func(*args, **kwargs)`: it returns a
plain value, raises an exception, or returns a coroutine object whose
behaviour once awaited is `CoroBehavior`. -/
inductive FuncResult (α : Type u) where
  | immediate (v : α)
  | raises (e : Exc)
  | coroutine (c : CoroBehavior α)
  deriving DecidableEq, Repr

/-- Outcome of the `try` body of `_call_func` (everything up to and
including the `with CancelScope()` block). -/
inductive TryOutcome (α : Type u) where
  /-- the body completed without a propagating exception; `retval` holds
  `some v` if `retval = await retval` (or the immediate call) produced a
  value, `none` if the scope swallowed its own cancellation so the
  assignment never happened -/
  | ok (retval : Option α)
  /-- exception `e` propagates (`e = .cancelled` when it is of the
  scheduler's cancellation class) -/
  | exc (e : Exc)
  deriving DecidableEq, Repr

/-- The done-callback `_call_func` registers on the future (closure
`callback`): returns `true` exactly when it invokes
`self.call(scope.cancel)`, i.e. when the future was cancelled. -/
def callFuncCallback (f : FutureState α) : Bool :=
  f.isCancelled

/-- `await retval` inside `with CancelScope() as scope`, after the
`future.cancelled()` check.  Modelled from the spec: an `await` reached
inside a scope that has already been cancelled raises the scope's
cancellation exception at the await point without ever resuming the
coroutine body; a cancellation exception belonging to the scope itself
is swallowed by the scope's `__exit__`, while a foreign (scheduler /
outer-scope) cancellation and ordinary exceptions propagate out of the
`with` block.  Returns the `TryOutcome` of the `with` block, the future
state afterwards, and whether the coroutine body was ever resumed. -/
def awaitInScope (scopeCancelledEarly : Bool) (c : CoroBehavior α)
    (fut : FutureState α) : TryOutcome α × FutureState α × Bool :=
  if scopeCancelledEarly then
    -- the await raises the scope's own cancellation; the scope exit
    -- swallows it; `retval` was never reassigned
    (.ok none, fut, false)
  else
    match c with
    | .returns v => (.ok (some v), fut, true)
    | .raisesExc e => (.exc e, fut, true)
    | .outerCancel => (.exc .cancelled, fut, true)
    | .futureCancelMidRun =>
        -- the future is cancelled mid-run; the done-callback cancels the
        -- scope; the scope swallows its own cancellation on exit
        (.ok none, fut.cancelReq, true)

/-- Result of one run of `_call_func`. -/
structure CallFuncResult (α : Type u) where
  /-- final state of the future -/
  future : FutureState α
  /-- `scope.cancel()` was invoked before the coroutine was awaited -/
  scopeCancelledEarly : Bool
  /-- the coroutine body was resumed at least once -/
  coroResumed : Bool
  /-- `future.add_done_callback(callback)` was executed -/
  callbackRegistered : Bool
  /-- exception propagating (re-raised) out of `_call_func`, if any -/
  uncaught : Option Exc
  deriving DecidableEq, Repr

/-- The `except`/`else` chain of `_call_func` applied to the outcome of
the `try` body: returns the final future state and the exception (if
any) that escapes the task. -/
def callFuncHandlers (out : TryOutcome α) (fut : FutureState α) :
    FutureState α × Option Exc :=
  match out with
  | .exc e =>
      if e = .cancelled then
        -- except self._cancelled_exc_class: future.cancel()
        (fut.cancelReq, none)
      else
        -- except BaseException as exc: guarded set_exception, then
        -- re-raise when the exception is not an `Exception`
        let fut' := if fut.isCancelled then fut else fut.setException e
        (fut', if e.isException then none else some e)
  | .ok retval =>
      -- else: if not future.cancelled(): future.set_result(retval)
      -- (`retval = none` means the scope swallowed its own cancellation,
      -- which only happens after the future was cancelled, so the
      -- unguarded arm of that case is unreachable; see
      -- `callFunc_swallowed_only_when_cancelled`)
      let fut' :=
        if fut.isCancelled then fut
        else match retval with
          | some v => fut.setResult v
          | none => fut
      (fut', none)

/-- `BlockingPortal._call_func`, embedded: `fr` is the outcome of the
synchronous call `func(*args, **kwargs)`, `fut` the state of the
associated future at the moment the task body runs its
`future.cancelled()` check. -/
def callFunc (fr : FuncResult α) (fut : FutureState α) : CallFuncResult α :=
  match fr with
  | .raises e =>
      let (fut', unc) := callFuncHandlers (.exc e) fut
      { future := fut', scopeCancelledEarly := false, coroResumed := false
        callbackRegistered := false, uncaught := unc }
  | .immediate v =>
      let (fut', unc) := callFuncHandlers (.ok (some v)) fut
      { future := fut', scopeCancelledEarly := false, coroResumed := false
        callbackRegistered := false, uncaught := unc }
  | .coroutine c =>
      let early := fut.isCancelled
      let (out, fut1, resumed) := awaitInScope early c fut
      let (fut', unc) := callFuncHandlers out fut1
      { future := fut', scopeCancelledEarly := early, coroResumed := resumed
        callbackRegistered := !early, uncaught := unc }

/-! ## `BlockingPortal` lifecycle

```python
def _check_running(self) -> None:
    if self._event_loop_thread_id is None:
        raise RuntimeError('This portal is not running')
    if self._event_loop_thread_id == threading.get_ident():
        raise RuntimeError('This method cannot be called from the event loop thread')

async def sleep_until_stopped(self) -> None:
    await self._stop_event.wait()

async def stop(self, cancel_remaining: bool = False) -> None:
    self._event_loop_thread_id = None
    self._stop_event.set()
    if cancel_remaining:
        self._task_group.cancel_scope.cancel()
```
-/

/-- The portal state relevant to its lifecycle: the owning event-loop
thread identity (`None` once stopped), the stop event, and whether the
task group's cancel scope has been cancelled. -/
structure Portal where
  eventLoopThreadId : Option Nat
  stopEventSet : Bool
  taskGroupCancelled : Bool
  deriving DecidableEq, Repr

/-- A freshly constructed portal, bound to event-loop thread `tid`
(`BlockingPortal.__init__`). -/
def Portal.init (tid : Nat) : Portal :=
  { eventLoopThreadId := some tid, stopEventSet := false
    taskGroupCancelled := false }

/-- `BlockingPortal._check_running`, called with the identity of the
calling thread: returns the `RuntimeError` it raises, if any. -/
def checkRunning (p : Portal) (callerTid : Nat) : Option Exc :=
  if p.eventLoopThreadId = none then
    some (.runtimeError "This portal is not running")
  else if p.eventLoopThreadId = some callerTid then
    some (.runtimeError "This method cannot be called from the event loop thread")
  else
    none

/-- `BlockingPortal.sleep_until_stopped` awaits the stop event.
Modelled from the spec: the event primitive's `wait()` suspends the
calling task until `set()`; the returned boolean is `true` exactly when
the await completes (the caller is released) rather than remaining
suspended. -/
def sleepUntilStopped (p : Portal) : Bool :=
  p.stopEventSet

/-- `BlockingPortal.stop(cancel_remaining)`. -/
def stop (p : Portal) (cancelRemaining : Bool) : Portal :=
  { eventLoopThreadId := none
    stopEventSet := true
    taskGroupCancelled :=
      if cancelRemaining then true else p.taskGroupCancelled }

/-! ## `start_task_soon`, `start_task`, `call`

```python
def start_task_soon(self, func, *args, name=None) -> Future:
    self._check_running()
    f: Future = Future()
    self._spawn_task_from_thread(func, args, {}, name, f)
    return f

def call(self, func, *args):
    return self.start_task_soon(func, *args).result()
```
-/

/-- Observable outcome of a submission entry point: the usage error it
raised (if any), whether `_spawn_task_from_thread` was reached, and the
future handed back to the caller. -/
structure SpawnResult (α : Type u) where
  err : Option Exc
  spawned : Bool
  future : Option (FutureState α)
  deriving DecidableEq, Repr

/-- `BlockingPortal.start_task_soon`: check, create a fresh future,
spawn the task, return the future. -/
def startTaskSoon (α : Type u) (p : Portal) (callerTid : Nat) : SpawnResult α :=
  match checkRunning p callerTid with
  | some e => { err := some e, spawned := false, future := none }
  | none => { err := none, spawned := true, future := some .pending }

/-- `_BlockingPortalTaskStatus.started(value)`: resolves the readiness
future with `value`. -/
def taskStatusStarted (statusFut : FutureState α) (v : α) : FutureState α :=
  statusFut.setResult v

/-- The `task_done` callback that `BlockingPortal.start_task` registers
on the task's completion future:

```python
def task_done(future: Future) -> None:
    if not task_status_future.done():
        if future.cancelled():
            task_status_future.cancel()
        elif future.exception():
            task_status_future.set_exception(future.exception())
        else:
            exc = RuntimeError('Task exited without calling task_status.started()')
            task_status_future.set_exception(exc)
```

Takes the readiness future's state and the completion future's state,
and returns the new readiness future state. -/
def taskDone (statusFut : FutureState α) (compFut : FutureState α) :
    FutureState α :=
  if !statusFut.isDone then
    if compFut.isCancelled then
      statusFut.cancelReq
    else
      match compFut.exceptionOf with
      | some e => statusFut.setException e
      | none =>
          statusFut.setException
            (.runtimeError "Task exited without calling task_status.started()")
  else
    statusFut

/-- `BlockingPortal.start_task` up to the spawn: `_check_running`, then
a fresh readiness future wrapped in a `_BlockingPortalTaskStatus`, a
fresh completion future with `task_done` registered, and the spawn.
(The subsequent blocking `task_status_future.result()` is governed by
`taskStatusStarted` and `taskDone`.) -/
def startTask (α : Type u) (p : Portal) (callerTid : Nat) : SpawnResult α :=
  match checkRunning p callerTid with
  | some e => { err := some e, spawned := false, future := none }
  | none => { err := none, spawned := true, future := some .pending }

/-- `Future.result()` once the producing side has run: `none` when the
future is still pending (the caller stays blocked), otherwise the value,
the re-raised stored exception, or a cancellation error. -/
def futureResultBlocking (s : FutureState α) : Option (Except Exc α) :=
  match s with
  | .pending => none
  | .cancelled => some (.error .cancelled)
  | .value v => some (.ok v)
  | .error e => some (.error e)

/-- `BlockingPortal.call(func, *args)` embedded as written in the
source: `self.start_task_soon(func, *args).result()`.  `fr` is the
behaviour of `func`, `obsCancel` says whether an observer cancels the
returned future before the spawned task reaches its `future.cancelled()`
check.  Returns either the usage error raised by `start_task_soon`, or
the outcome of blocking on the future (which `_call_func` resolves). -/
def call (p : Portal) (callerTid : Nat) (fr : FuncResult α)
    (obsCancel : Bool) : Except Exc (Option (Except Exc α)) :=
  match (startTaskSoon α p callerTid).err with
  | some e => .error e
  | none =>
      let fut0 : FutureState α := if obsCancel then .cancelled else .pending
      .ok (futureResultBlocking (callFunc fr fut0).future)

/-- Modelled from the spec: `call` "submits func to the loop thread and
blocks the calling thread until the result is ready", returning the
task's value, re-raising the stored error, or raising a cancellation
error once the task's future is terminal.  Stated independently of the
source's composition, for comparison with `call`. -/
def callSpecModel (p : Portal) (callerTid : Nat) (fr : FuncResult α)
    (obsCancel : Bool) : Except Exc (Option (Except Exc α)) :=
  match checkRunning p callerTid with
  | some e => .error e
  | none =>
      let fut0 : FutureState α := if obsCancel then .cancelled else .pending
      match (callFunc fr fut0).future with
      | .pending => .ok none
      | .cancelled => .ok (some (.error .cancelled))
      | .value v => .ok (some (.ok v))
      | .error e => .ok (some (.error e))

/-! ## `_BlockingAsyncContextManager` / `wrap_async_context_manager`

```python
async def run_async_cm(self):
    try:
        self._exit_event = Event()
        value = await self._async_cm.__aenter__()
    except BaseException as exc:
        self._enter_future.set_exception(exc)
        raise
    else:
        self._enter_future.set_result(value)

    await self._exit_event.wait()
    return await self._async_cm.__aexit__(*self._exit_exc_info)

def __enter__(self) -> T_co:
    self._enter_future = Future()
    self._exit_future = self._portal.start_task_soon(self.run_async_cm)
    cm = self._enter_future.result()
    return cast(T_co, cm)

def __exit__(self, __exc_type, __exc_value, __traceback):
    self._exit_exc_info = __exc_type, __exc_value, __traceback
    self._portal.call(self._exit_event.set)
    return self._exit_future.result()
```
-/

/-- Outcome of `cm.__aenter__()` on the loop thread. -/
inductive AenterOutcome (α : Type u) where
  | ok (v : α)
  | raises (e : Exc)
  deriving DecidableEq, Repr

/-- Outcome of `cm.__aexit__(*exc_info)` on the loop thread: either it
returns a boolean (whether to suppress the exception) or raises. -/
inductive AexitOutcome where
  | ok (suppress : Bool)
  | raises (e : Exc)
  deriving DecidableEq, Repr

/-- The exception info forwarded by the synchronous `__exit__`:
`none` models `(None, None, None)`. -/
abbrev ExcInfo := Option Exc

/-- One full run of the adapter returned by
`wrap_async_context_manager(cm)`: what the synchronous caller and the
wrapped `cm` each observe. -/
structure WrappedCMRun (α : Type u) where
  /-- number of tasks spawned through the portal for the adapter body -/
  taskSpawnCount : Nat
  /-- final state of `_enter_future` -/
  enterFuture : FutureState α
  /-- what the synchronous `__enter__` returns or raises -/
  enterResult : Except Exc α
  /-- the exc info `cm.__aexit__` was invoked with on the loop thread
  (`none` = `__aexit__` never ran) -/
  aexitReceivedInfo : Option ExcInfo
  /-- `_exit_event` was set (the suspended task was released) -/
  exitEventSet : Bool
  /-- final state of `_exit_future` (the `start_task_soon` future,
  resolved by `_call_func` with the coroutine's outcome) -/
  exitFuture : FutureState Bool
  /-- what the synchronous `__exit__` returns or raises (`none` =
  `__exit__` was never invoked, or would block forever) -/
  exitResult : Option (Except Exc Bool)
  deriving Repr

/-- The adapter protocol of `_BlockingAsyncContextManager`, run end to
end: the synchronous `__enter__` spawns `run_async_cm` via
`start_task_soon` and blocks on `_enter_future`; if `__aenter__`
succeeded, the task suspends on `_exit_event` until the synchronous
`__exit__` stores `excInfo` and sets the event through `portal.call`,
after which the task awaits `cm.__aexit__(*excInfo)` and `_call_func`
resolves `_exit_future` with that outcome, unblocking
`_exit_future.result()`.  `aenter` is the behaviour of
`cm.__aenter__()`, `aexit` that of `cm.__aexit__` as a function of the
received exc info.  (When `__aenter__` raises, Python never invokes the
synchronous `__exit__`, so the exit fields record only the task side.) -/
def runWrappedCM (aenter : AenterOutcome α) (excInfo : ExcInfo)
    (aexit : ExcInfo → AexitOutcome) : WrappedCMRun α :=
  match aenter with
  | .raises e =>
      -- enter_future.set_exception(exc); raise -- the re-raised exception
      -- becomes the coroutine's outcome, handled by _call_func
      { taskSpawnCount := 1
        enterFuture := (FutureState.pending).setException e
        enterResult := .error e
        aexitReceivedInfo := none
        exitEventSet := false
        exitFuture := (callFunc (.coroutine (.raisesExc e))
          (FutureState.pending (α := Bool))).future
        exitResult := none }
  | .ok v =>
      -- enter_future.set_result(value); the task suspends on the exit
      -- event; the synchronous exit forwards excInfo and releases it
      let exitOutcome := aexit excInfo
      let coroBehavior : CoroBehavior Bool :=
        match exitOutcome with
        | .ok b => .returns b
        | .raises e => .raisesExc e
      let exitFut := (callFunc (.coroutine coroBehavior)
        (FutureState.pending (α := Bool))).future
      { taskSpawnCount := 1
        enterFuture := (FutureState.pending).setResult v
        enterResult := .ok v
        aexitReceivedInfo := some excInfo
        exitEventSet := true
        exitFuture := exitFut
        exitResult := futureResultBlocking exitFut }

/-! ## `start_blocking_portal` teardown

```python
    if future.done():
        portal = future.result()
        try:
            yield portal
        except BaseException:
            portal.call(portal.stop, True)
            raise

        portal.call(portal.stop, False)

    run_future.result()
```
(inside `with ThreadPoolExecutor(1) as executor:`)
-/

/-- Externally observable events of the bootstrap teardown, in order. -/
inductive BootstrapEvent where
  /-- `portal.call(portal.stop, cancelRemaining)` ran -/
  | portalStopped (cancelRemaining : Bool)
  /-- `run_future.result()` returned (the hosted main function ended) -/
  | runFutureAwaited
  /-- the hosting worker thread was joined -/
  | hostThreadJoined
  deriving DecidableEq, Repr

/-- The teardown of `start_blocking_portal` after a successful startup
(the portal future is done and the portal was yielded), for a `with`
body that either returns normally (`bodyExc = none`) or raises.  On an
exception, `portal.call(portal.stop, True)` runs and the exception is
re-raised, skipping `run_future.result()`; on normal exit,
`portal.call(portal.stop, False)` runs and then `run_future.result()`
is awaited.  Modelled from the spec for the executor context exit (an
external collaborator): leaving the `with ThreadPoolExecutor(1)` block,
normally or by exception, shuts the executor down and joins its worker
thread before `start_blocking_portal` returns or propagates the
exception.  Returns the final portal state, the ordered event list, and
the exception propagating out. -/
def startBlockingPortalTeardown (p : Portal) (bodyExc : Option Exc) :
    Portal × List BootstrapEvent × Option Exc :=
  match bodyExc with
  | some e =>
      (stop p true, [.portalStopped true, .hostThreadJoined], some e)
  | none =>
      (stop p false,
       [.portalStopped false, .runFutureAwaited, .hostThreadJoined], none)

/-! ## Sanity lemmas -/

/-- Inside `_call_func`, while the spawned task is still executing, its
future is pending or cancelled (the task itself is the only producer);
under that invariant, the private scope swallows a cancellation (so
`retval` keeps the stale coroutine object) only when the future is
already cancelled at the handler — hence the unguarded
`future.set_result` arm of the swallowed case is unreachable. -/
theorem callFunc_swallowed_only_when_cancelled {α : Type u}
    (c : CoroBehavior α) (fut : FutureState α)
    (hlive : fut = .pending ∨ fut = .cancelled)
    (h : (awaitInScope fut.isCancelled c fut).1 = TryOutcome.ok none) :
    ((awaitInScope fut.isCancelled c fut).2.1).isCancelled = true := by
  rcases hlive with rfl | rfl <;> cases c <;>
    simp_all [awaitInScope, FutureState.isCancelled, FutureState.cancelReq]

/-- `_call_func` always drives the future to a terminal state: the
blocking `Future.result()` of a caller is eventually released. -/
theorem callFunc_future_terminal {α : Type u} (fr : FuncResult α)
    (fut : FutureState α) :
    ((callFunc fr fut).future).isDone = true := by
  cases fr with
  | immediate v =>
      cases fut <;>
        simp [callFunc, callFuncHandlers, FutureState.isCancelled,
          FutureState.setResult, FutureState.isDone]
  | raises e =>
      by_cases he : e = Exc.cancelled <;>
        cases fut <;>
          simp [callFunc, callFuncHandlers, he, FutureState.isCancelled,
            FutureState.setException, FutureState.cancelReq, FutureState.isDone]
  | coroutine c =>
      cases c with
      | returns v =>
          cases fut <;>
            simp [callFunc, awaitInScope, callFuncHandlers,
              FutureState.isCancelled, FutureState.setResult, FutureState.isDone]
      | raisesExc e =>
          by_cases he : e = Exc.cancelled <;>
            cases fut <;>
              simp [callFunc, awaitInScope, callFuncHandlers, he,
                FutureState.isCancelled, FutureState.setException,
                FutureState.cancelReq, FutureState.isDone]
      | outerCancel =>
          cases fut <;>
            simp [callFunc, awaitInScope, callFuncHandlers,
              FutureState.isCancelled, FutureState.cancelReq, FutureState.isDone]
      | futureCancelMidRun =>
          cases fut <;>
            simp [callFunc, awaitInScope, callFuncHandlers,
              FutureState.isCancelled, FutureState.cancelReq, FutureState.isDone]

/-! ## Claims -/

/-- C1: In `BlockingPortal._call_func`, when `func` returns a coroutine
and the associated future is already cancelled at that moment, the
cancel scope is cancelled before the coroutine is awaited and the
coroutine body is never resumed; when the future is not yet cancelled,
a done-callback is registered on the future, and that callback cancels
the scope exactly when the future is cancelled. -/
theorem c1_call_func_cancel_reconciliation_future_to_task {α : Type}
    (c : CoroBehavior α) (fut : FutureState α) :
    (callFunc (.coroutine c) fut).scopeCancelledEarly = fut.isCancelled ∧
    (callFunc (.coroutine c) fut).coroResumed = !fut.isCancelled ∧
    (callFunc (.coroutine c) fut).callbackRegistered = !fut.isCancelled ∧
    callFuncCallback fut = fut.isCancelled := by
  refine ⟨?_, ?_, ?_, rfl⟩ <;>
    cases fut <;> cases c <;>
      simp [callFunc, awaitInScope, FutureState.isCancelled]

/-- C2: In `BlockingPortal._call_func`, if the awaited coroutine raises
the scheduler's cancellation exception (cancellation not requested via
the future), the future transitions to the cancelled terminal state
rather than to an error state, and nothing escapes the task: a thread
awaiting the future observes a cancellation outcome.  Stated both for a
cancellation delivered at the await point by the scheduler
(`outerCancel`) and for the coroutine body raising the cancellation
class itself. -/
theorem c2_call_func_scheduler_cancel_resolves_future_cancelled {α : Type}
    (fut : FutureState α) :
    (callFunc (.coroutine .outerCancel) fut).future = fut.cancelReq ∧
    (callFunc (.coroutine .outerCancel) fut).uncaught = none ∧
    (callFunc (.coroutine (.raisesExc .cancelled)) fut).future = fut.cancelReq ∧
    (callFunc (.coroutine (α := α) .outerCancel) .pending).future = .cancelled := by
  refine ⟨?_, ?_, ?_, ?_⟩ <;>
    cases fut <;>
      simp [callFunc, awaitInScope, callFuncHandlers, FutureState.isCancelled,
        FutureState.cancelReq]

/-- C3 counterexample: a `BaseException` that is not an `Exception`
(`fatal 0`), raised by the awaited coroutine while the future is
pending, IS captured into the future's error slot — and is also
re-raised out of the task.  This refutes the claim that such an
exception "is never captured into the task's future". -/
theorem c3_fatal_exception_stored_counterexample :
    (callFunc (.coroutine (.raisesExc (.fatal 0)))
        (.pending : FutureState Nat)).future = .error (.fatal 0) ∧
    (callFunc (.coroutine (.raisesExc (.fatal 0)))
        (.pending : FutureState Nat)).uncaught = some (.fatal 0) := by
  decide

/-- C3 (amended): in `BlockingPortal._call_func`, an exception raised
by the task that is not of the scheduler's cancellation class is stored
into the future's error slot whenever the future is not already
cancelled — including exceptions that are not subclasses of
`Exception` — and it propagates out of the task uncaught exactly when
it is not an `Exception`.  Stated for both the coroutine body raising
(with the future not already cancelled, since otherwise the coroutine
is never resumed) and `func` itself raising synchronously. -/
theorem c3_fatal_exception_stored_and_reraised {α : Type}
    (e : Exc) (fut : FutureState α) (h : e ≠ .cancelled)
    (hf : fut.isCancelled = false) :
    ((callFunc (.coroutine (.raisesExc e)) fut).future = fut.setException e) ∧
    ((callFunc (.coroutine (.raisesExc e)) fut).uncaught =
      if e.isException then none else some e) ∧
    ((callFunc (.raises e) fut).future = fut.setException e) ∧
    ((callFunc (.raises e) fut).uncaught =
      if e.isException then none else some e) := by
  refine ⟨?_, ?_, ?_, ?_⟩ <;>
    cases fut <;> simp [FutureState.isCancelled] at hf <;>
      simp [callFunc, awaitInScope, callFuncHandlers, FutureState.isCancelled,
        FutureState.cancelReq, FutureState.setException, h]

/-- C3 witness: the amended claim evaluated at `e = fatal 1`, a pending
future. -/
theorem c3_fatal_exception_witness :
    (Exc.fatal 1 ≠ .cancelled) ∧
    (FutureState.pending (α := Nat)).isCancelled = false ∧
    (callFunc (.coroutine (.raisesExc (.fatal 1)))
        (.pending : FutureState Nat)).future =
      (FutureState.pending (α := Nat)).setException (.fatal 1) :=
  ⟨by decide, by decide,
   (c3_fatal_exception_stored_and_reraised (.fatal 1)
     (.pending : FutureState Nat) (by decide) (by decide)).1⟩

/-- C4 counterexample: a task spawned via `start_task` whose completion
future is cancelled before `task_status.started()` was ever called does
NOT make the readiness wait fail with a `RuntimeError`: the `task_done`
callback cancels the readiness future instead, so the wait raises a
cancellation error and no error is stored. -/
theorem c4_cancelled_task_readiness_counterexample :
    taskDone (FutureState.pending (α := Nat)) .cancelled = .cancelled ∧
    (taskDone (FutureState.pending (α := Nat)) .cancelled).exceptionOf = none := by
  decide

/-- C4 (amended): when the completion future of a `start_task` task
reaches a terminal state without `task_status.started()` having been
called (readiness future still pending): if the completion future was
cancelled, the readiness future is cancelled; if it finished with an
exception, the readiness future receives that same exception; only when
it finished successfully does the readiness wait fail with
`RuntimeError('Task exited without calling task_status.started()')`. -/
theorem c4_readiness_outcome_without_started {α : Type}
    (statusFut compFut : FutureState α)
    (hs : statusFut.isDone = false) (hc : compFut.isDone = true) :
    taskDone statusFut compFut =
      match compFut with
      | .cancelled => .cancelled
      | .error e => .error e
      | .value _ =>
          .error (.runtimeError "Task exited without calling task_status.started()")
      | .pending => statusFut := by
  cases statusFut <;> simp [FutureState.isDone] at hs
  cases compFut <;> simp [FutureState.isDone] at hc <;>
    simp [taskDone, FutureState.isDone, FutureState.isCancelled,
      FutureState.exceptionOf, FutureState.cancelReq, FutureState.setException]

/-- C4 witness: the amended claim evaluated with a pending readiness
future and a completion future that finished with an ordinary error. -/
theorem c4_readiness_outcome_witness :
    taskDone (FutureState.pending (α := Nat)) (.error (.ordinary 3)) =
      .error (.ordinary 3) := by
  have h := c4_readiness_outcome_without_started
    (FutureState.pending (α := Nat)) (.error (.ordinary 3))
    (by decide) (by decide)
  simpa using h

/-- C5: every submission entry point of the portal (`call`,
`start_task_soon`, `start_task`) raises a `RuntimeError` usage error,
before any task is spawned, in exactly two cases: the portal is not
running (its event-loop thread id is `None`), or the caller is the
portal's own event-loop thread. -/
theorem c5_submission_usage_errors {α : Type} (p : Portal) (tid : Nat) :
    ((startTaskSoon α p tid).err =
      (if p.eventLoopThreadId = none then
        some (.runtimeError "This portal is not running")
      else if p.eventLoopThreadId = some tid then
        some (.runtimeError "This method cannot be called from the event loop thread")
      else none)) ∧
    ((startTaskSoon α p tid).spawned = (startTaskSoon α p tid).err.isNone) ∧
    ((startTask α p tid).err = (startTaskSoon α p tid).err) ∧
    ((startTask α p tid).spawned = (startTask α p tid).err.isNone) ∧
    (∀ (fr : FuncResult α) (oc : Bool),
      (∃ e, call p tid fr oc = .error e) ↔ (startTaskSoon α p tid).err.isSome) := by
  by_cases h1 : p.eventLoopThreadId = none
  · simp [startTaskSoon, startTask, call, checkRunning, h1]
  · by_cases h2 : p.eventLoopThreadId = some tid
    · simp [startTaskSoon, startTask, call, checkRunning, h1, h2]
    · simp [startTaskSoon, startTask, call, checkRunning, h1, h2]

/-- C6: `BlockingPortal.stop(cancel_remaining)` marks the portal
non-running (every later submission check fails with the not-running
`RuntimeError`), sets the stop event (releasing `sleep_until_stopped`),
and the task group's cancel scope ends up cancelled exactly when
`cancel_remaining` is true or it already was; in particular, with
`cancel_remaining = false`, running tasks are not cancelled by the
stop. -/
theorem c6_stop_marks_stopped_and_cancels_iff_requested
    (p : Portal) (c : Bool) :
    (stop p c).eventLoopThreadId = none ∧
    (∀ tid, checkRunning (stop p c) tid =
      some (.runtimeError "This portal is not running")) ∧
    (stop p c).stopEventSet = true ∧
    sleepUntilStopped (stop p c) = true ∧
    (stop p c).taskGroupCancelled = (c || p.taskGroupCancelled) := by
  cases c <;>
    simp [stop, checkRunning, sleepUntilStopped]

/-- C7: `BlockingPortal.call(func, *args)` — embedded exactly as the
source's `start_task_soon(func, *args).result()` — is equivalent to the
spec-side model that blocks the calling thread until the task's future
is terminal, then returns the value, re-raises the stored error, or
raises a cancellation error; moreover the blocking wait is always
released (the task drives the future to a terminal state), so `call`
never yields the still-blocked outcome. -/
theorem c7_call_equals_start_task_soon_then_result {α : Type}
    (p : Portal) (tid : Nat) (fr : FuncResult α) (oc : Bool) :
    call p tid fr oc = callSpecModel p tid fr oc ∧
    call p tid fr oc ≠ .ok none := by
  constructor
  · unfold call callSpecModel startTaskSoon futureResultBlocking
    cases h : checkRunning p tid
    · simp
      cases hf : (callFunc fr (if oc then .cancelled else FutureState.pending)).future <;>
        simp
    · simp
  · unfold call startTaskSoon
    cases h : checkRunning p tid
    · simp
      have ht := callFunc_future_terminal fr
        (if oc then (.cancelled : FutureState α) else .pending)
      cases hf : (callFunc fr (if oc then (.cancelled : FutureState α) else .pending)).future
      · simp [hf, FutureState.isDone] at ht
      · simp [futureResultBlocking]
      · simp [futureResultBlocking]
      · simp [futureResultBlocking]
    · simp

/-- C7 witness: `call` on a running portal from a foreign thread, for a
coroutine returning `21 * 2`, with no observer cancellation. -/
theorem c7_call_witness :
    call (Portal.init 0) 1 (.coroutine (.returns (42 : Nat))) false =
      callSpecModel (Portal.init 0) 1 (.coroutine (.returns 42)) false ∧
    call (Portal.init 0) 1 (.coroutine (.returns (42 : Nat))) false ≠ .ok none :=
  c7_call_equals_start_task_soon_then_result (Portal.init 0) 1
    (.coroutine (.returns 42)) false

/-- C8: when the scope of `start_blocking_portal` exits normally, the
portal is stopped with `cancel_remaining = false` (the task group's
scope is not newly cancelled); when it exits via an exception, the
portal is stopped with `cancel_remaining = true` before that exception
is re-raised; on both paths the first teardown event is the stop with
the corresponding mode and the last event before returning/propagating
is the join of the hosting thread. -/
theorem c8_bootstrap_teardown_stop_modes_and_join
    (p : Portal) (bodyExc : Option Exc) :
    (startBlockingPortalTeardown p bodyExc).2.2 = bodyExc ∧
    (startBlockingPortalTeardown p bodyExc).1 = stop p bodyExc.isSome ∧
    ((startBlockingPortalTeardown p bodyExc).1).eventLoopThreadId = none ∧
    ((startBlockingPortalTeardown p bodyExc).1).taskGroupCancelled =
      (bodyExc.isSome || p.taskGroupCancelled) ∧
    ((startBlockingPortalTeardown p bodyExc).2.1).head? =
      some (.portalStopped bodyExc.isSome) ∧
    ((startBlockingPortalTeardown p bodyExc).2.1).getLast? =
      some .hostThreadJoined := by
  cases bodyExc <;>
    simp [startBlockingPortalTeardown, stop]

/-- C9: for every async context manager, the adapter of
`wrap_async_context_manager` spawns exactly one task; its synchronous
enter returns (or re-raises) the `__aenter__` outcome via the
enter-future; when the enter succeeded, the task suspends until the
synchronous exit sets the internal event, `__aexit__` receives exactly
the forwarded exception info on the loop thread, and the synchronous
exit returns `__aexit__`'s boolean (or re-raises its error) via the
exit-future; when `__aenter__` raised, `__aexit__` never runs and the
event is never set. -/
theorem c9_wrapped_cm_protocol {α : Type}
    (aenter : AenterOutcome α) (excInfo : ExcInfo)
    (aexit : ExcInfo → AexitOutcome) :
    (runWrappedCM aenter excInfo aexit).taskSpawnCount = 1 ∧
    (runWrappedCM aenter excInfo aexit).enterResult =
      (match aenter with
        | .ok v => .ok v
        | .raises e => .error e) ∧
    (runWrappedCM aenter excInfo aexit).enterFuture =
      (match aenter with
        | .ok v => .value v
        | .raises e => .error e) ∧
    (runWrappedCM aenter excInfo aexit).aexitReceivedInfo =
      (match aenter with
        | .ok _ => some excInfo
        | .raises _ => none) ∧
    (runWrappedCM aenter excInfo aexit).exitEventSet =
      (match aenter with
        | .ok _ => true
        | .raises _ => false) ∧
    (runWrappedCM aenter excInfo aexit).exitResult =
      (match aenter with
        | .raises _ => none
        | .ok _ =>
            match aexit excInfo with
            | .ok b => some (.ok b)
            | .raises e => some (.error e)) := by
  cases aenter with
  | raises e =>
      simp [runWrappedCM, FutureState.setException]
  | ok v =>
      cases h : aexit excInfo with
      | ok b =>
          simp [runWrappedCM, h, callFunc, awaitInScope, callFuncHandlers,
            FutureState.isCancelled, FutureState.setResult,
            futureResultBlocking]
      | raises e =>
          rcases he : e with _ | m | n | n <;>
            simp [runWrappedCM, h, he, callFunc, awaitInScope, callFuncHandlers,
              FutureState.isCancelled, FutureState.setException,
              FutureState.setResult, FutureState.cancelReq,
              futureResultBlocking, Exc.isException]

/-- C10: the readiness channel of `start_task` resolves at most once:
after `task_status.started(v)` has resolved the readiness future with
`v`, the `task_done` callback leaves it at `v` whatever the completion
future's terminal outcome, because `task_done` is a no-op whenever the
readiness future is already done. -/
theorem c10_readiness_at_most_once {α : Type}
    (v : α) (compFut : FutureState α) :
    taskDone (taskStatusStarted .pending v) compFut = .value v ∧
    (∀ statusFut : FutureState α, statusFut.isDone = true →
      taskDone statusFut compFut = statusFut) := by
  constructor
  · simp [taskStatusStarted, taskDone, FutureState.setResult, FutureState.isDone]
  · intro s hs
    cases s <;> simp [FutureState.isDone] at hs <;> simp [taskDone, FutureState.isDone]

/-- C10 witness: readiness resolved with `7`, completion future later
cancelled — the readiness result is unchanged; and `task_done` is a
no-op on an already-done readiness future. -/
theorem c10_readiness_witness :
    taskDone (taskStatusStarted (FutureState.pending (α := Nat)) 7) .cancelled =
      .value 7 ∧
    taskDone (FutureState.value 7 : FutureState Nat) .cancelled = .value 7 :=
  ⟨(c10_readiness_at_most_once 7 .cancelled).1,
   (c10_readiness_at_most_once 7 .cancelled).2 (.value 7) (by decide)⟩

end AnyioFromThread
